import Mathlib

/-!
Verification of the sign-up request handler of `tdd-clean-node-api`.

The source of truth is `src/presentation/controllers/signup.ts`
(`SignUpController.handle`).  The handler is embedded below as a pure
function that returns the HTTP-style response produced by a call
together with the list of collaborator invocations the call performed.

JavaScript particulars embedded explicitly:
  * `undefined` field values are `Option.none`; JavaScript falsiness of a
    string-or-undefined value (`!httpRequest.body[field]`) is `truthy`
    being `false` (`undefined` and `""` are falsy);
  * accessing a property of an `undefined` body raises a `TypeError`,
    which the surrounding `try`/`catch` converts to the server-error
    response — this is the `none` branch on `req.body`;
  * the success path of the source has no `return` statement, so the
    JavaScript call evaluates to `undefined`; the embedded `handle`
    therefore returns an `Option HttpResponse`, with `none` standing for
    that `undefined` result.
-/

namespace SignUp

/-- Error values the controller places in a response body.
Modelled from the spec: the classes `MissingParamError`, `InvalidParamError`
and `ServerError` are imported from `../errors`, which is not among the
sources; the spec describes them as tagged variants naming a field
(MissingParam/InvalidParam) or carrying nothing (ServerError). -/
inductive ErrorBody where
  | MissingParamError (field : String)
  | InvalidParamError (field : String)
  | ServerError
  deriving DecidableEq, Repr

/-- `HttpResponse`: a status code together with a body (spec §3). -/
structure HttpResponse where
  statusCode : Nat
  body : ErrorBody
  deriving DecidableEq, Repr

/-- The sign-up request body: the four fields, each possibly `undefined`. -/
structure SignUpBody where
  name : Option String
  email : Option String
  password : Option String
  passwordConfirmation : Option String
  deriving DecidableEq, Repr

/-- `HttpRequest`: a record with a `body` field; the body itself may be
`undefined`. -/
structure HttpRequest where
  body : Option SignUpBody
  deriving DecidableEq, Repr

/-- The account record returned by the account-creation collaborator
(`AccountModel` in the test file's stub). -/
structure AccountModel where
  id : String
  name : String
  email : String
  password : String
  deriving DecidableEq, Repr

/-- The input the controller passes to `addAccount.add`:
`{ email, name, password }` — no `passwordConfirmation` field exists. -/
structure AddAccountModel where
  email : String
  name : String
  password : String
  deriving DecidableEq, Repr

/-- The injected email-format validator.  `isValid` may raise
(`Except.error` carries the thrown error's message). -/
structure EmailValidator where
  isValid : String → Except String Bool

/-- The injected account-creation collaborator.  `add` may raise. -/
structure AddAccount where
  add : AddAccountModel → Except String AccountModel

/-- JavaScript truthiness of an optional string field:
`undefined` and `""` are falsy, every other string is truthy. -/
def truthy : Option String → Bool
  | none => false
  | some s => s != ""

/-- Dynamic property access `body[field]` for the four known keys. -/
def getField (b : SignUpBody) (field : String) : Option String :=
  if field = "email" then b.email
  else if field = "name" then b.name
  else if field = "password" then b.password
  else if field = "passwordConfirmation" then b.passwordConfirmation
  else none

/-- The loop's field list, in the source's order:
`['email', 'name', 'password', 'passwordConfirmation']`. -/
def requiredFields : List String :=
  ["email", "name", "password", "passwordConfirmation"]

/-- One collaborator invocation observed during a call to `handle`. -/
inductive CollabCall where
  | isValidCall (email : String)
  | addCall (account : AddAccountModel)
  deriving DecidableEq, Repr

/-- Modelled from the spec: `badRequest` from `../helpers/http-helper`
(not among the sources) wraps an error as a 400 response. -/
def badRequest (e : ErrorBody) : HttpResponse :=
  { statusCode := 400, body := e }

/-- Modelled from the spec: `serverError` from `../helpers/http-helper`
(not among the sources) is the 500 response with the generic
server-error body; it takes no argument, so no detail of a thrown
error can appear in it. -/
def serverError : HttpResponse :=
  { statusCode := 500, body := ErrorBody.ServerError }

/-- `SignUpController.handle`, embedded from
`src/presentation/controllers/signup.ts` lines 15–36.  The second
component records the collaborator calls the invocation performed, in
order.  `none` as first component is the `undefined` the JavaScript
function returns when control falls off its end. -/
def handle (ev : EmailValidator) (aa : AddAccount) (req : HttpRequest) :
    Option HttpResponse × List CollabCall :=
  match req.body with
  | none =>
      -- `httpRequest.body[field]` on an undefined body raises a
      -- TypeError on the loop's first iteration; the catch returns
      -- `serverError()` with no collaborator called.
      (some serverError, [])
  | some body =>
      match requiredFields.find? (fun field => !truthy (getField body field)) with
      | some field =>
          (some (badRequest (ErrorBody.MissingParamError field)), [])
      | none =>
          -- const { name, email, password, passwordConfirmation } = httpRequest.body
          let name := body.name.getD ""
          let email := body.email.getD ""
          let password := body.password.getD ""
          let passwordConfirmation := body.passwordConfirmation.getD ""
          if password ≠ passwordConfirmation then
            (some (badRequest (ErrorBody.InvalidParamError "passwordConfirmation")), [])
          else
            match ev.isValid email with
            | .error _ => (some serverError, [.isValidCall email])
            | .ok isValid =>
                if !isValid then
                  (some (badRequest (ErrorBody.InvalidParamError "email")),
                   [.isValidCall email])
                else
                  let account : AddAccountModel :=
                    { email := email, name := name, password := password }
                  match aa.add account with
                  | .error _ =>
                      (some serverError, [.isValidCall email, .addCall account])
                  | .ok _ =>
                      -- no return statement on this path in the source
                      (none, [.isValidCall email, .addCall account])

/-- Number of `isValid` invocations in a call trace. -/
def isValidCount (tr : List CollabCall) : Nat :=
  tr.countP (fun c => match c with | .isValidCall _ => true | _ => false)

/-- Number of `add` invocations in a call trace. -/
def addCount (tr : List CollabCall) : Nat :=
  tr.countP (fun c => match c with | .addCall _ => true | _ => false)

/-- The always-true email validator stub of the test file. -/
def emailValidatorStub : EmailValidator :=
  ⟨fun _ => .ok true⟩

/-- An email validator whose `isValid` returns `false` (the test file's
mocked validator). -/
def emailValidatorFalseStub : EmailValidator :=
  ⟨fun _ => .ok false⟩

/-- An email validator whose `isValid` throws (the test file's
`makeEmailValidatorWithError`). -/
def emailValidatorThrowStub : EmailValidator :=
  ⟨fun _ => .error "err"⟩

/-- An account-creation collaborator whose `add` throws (the test file's
mocked `add`). -/
def addAccountThrowStub : AddAccount :=
  ⟨fun _ => .error "err"⟩

/-- The account-creation stub of the test file, returning a fixed account. -/
def addAccountStub : AddAccount :=
  ⟨fun _ => .ok ⟨"valid_id", "valid_name", "valid_email", "valid_password"⟩⟩

/-- A request with all four fields present and matching passwords, as in
the test file's success-path tests. -/
def validRequest : HttpRequest :=
  ⟨some ⟨some "any_name", some "any_email@mail.com",
         some "any_password", some "any_password"⟩⟩

/-- The required-field loop, characterized: the first field of
`requiredFields` (in the source's order) whose value is falsy. -/
theorem find?_requiredFields (body : SignUpBody) :
    requiredFields.find? (fun field => !truthy (getField body field)) =
      if truthy body.email = false then some "email"
      else if truthy body.name = false then some "name"
      else if truthy body.password = false then some "password"
      else if truthy body.passwordConfirmation = false then some "passwordConfirmation"
      else none := by
  cases he : truthy body.email <;> cases hn : truthy body.name <;>
    cases hp : truthy body.password <;> cases hpc : truthy body.passwordConfirmation <;>
    simp [requiredFields, getField, List.find?, he, hn, hp, hpc]

/-- C1: the contract promises an `HttpResponse` for every request, but on
the full success path — every validation passes and the account-creation
collaborator returns normally — the source has no `return` statement, so
the call evaluates to JavaScript `undefined` (`none` here), not a
status/body pair. -/
theorem handle_success_path_no_response :
    (handle emailValidatorStub addAccountStub validRequest).1 = none := by
  decide

/-- C10: when the request's `body` field is entirely absent, the dynamic
field access raises inside the `try` block, so `handle` returns 500 with
the `ServerError` body (not a 400 MissingParam), with no collaborator
invoked: the try/catch covers the required-field loop. -/
theorem handle_missing_body_server_error (ev : EmailValidator) (aa : AddAccount) :
    handle ev aa ⟨none⟩ = (some serverError, []) ∧ serverError.statusCode = 500 :=
  ⟨rfl, rfl⟩

/-- C9: `handle` is deterministic and stateless across invocations: with
deterministic collaborators (functions in this embedding) and identical
input, two runs of the embedded function produce identical responses. -/
theorem handle_deterministic (ev : EmailValidator) (aa : AddAccount)
    (req : HttpRequest) :
    handle ev aa req = handle ev aa req := rfl

/-- C2: for each of the four required fields, if that field is absent or
falsy and the other three are truthy, `handle` returns 400 with a
MissingParam body naming exactly that field (and no collaborator is
invoked). -/
theorem handle_single_missing_field (ev : EmailValidator) (aa : AddAccount)
    (body : SignUpBody) (f : String) (hf : f ∈ requiredFields)
    (hmiss : truthy (getField body f) = false)
    (hothers : ∀ g ∈ requiredFields, g ≠ f → truthy (getField body g) = true) :
    handle ev aa ⟨some body⟩ =
      (some (badRequest (ErrorBody.MissingParamError f)), []) := by
  have hE := fun h => hothers "email" (by simp [requiredFields]) h
  have hN := fun h => hothers "name" (by simp [requiredFields]) h
  have hP := fun h => hothers "password" (by simp [requiredFields]) h
  have hPC := fun h => hothers "passwordConfirmation" (by simp [requiredFields]) h
  simp only [requiredFields, List.mem_cons, List.not_mem_nil, or_false] at hf
  rcases hf with rfl | rfl | rfl | rfl
  · simp [getField] at hmiss
    simp [handle, find?_requiredFields, hmiss]
  · have he := hE (by decide)
    simp [getField] at he hmiss
    simp [handle, find?_requiredFields, he, hmiss]
  · have he := hE (by decide); have hn := hN (by decide)
    simp [getField] at he hn hmiss
    simp [handle, find?_requiredFields, he, hn, hmiss]
  · have he := hE (by decide); have hn := hN (by decide); have hp := hP (by decide)
    simp [getField] at he hn hp hmiss
    simp [handle, find?_requiredFields, he, hn, hp, hmiss]

/-- C2 witness: omitting only `name` yields 400 MissingParam("name"). -/
theorem handle_single_missing_field_witness :
    handle emailValidatorStub addAccountStub
        ⟨some ⟨none, some "any_email@mail.com", some "any_password",
               some "any_password"⟩⟩ =
      (some (badRequest (ErrorBody.MissingParamError "name")), []) :=
  handle_single_missing_field emailValidatorStub addAccountStub
    ⟨none, some "any_email@mail.com", some "any_password", some "any_password"⟩
    "name" (by decide) (by decide) (by decide)

/-- C3: with all four fields present (truthy) and `password` not equal to
`passwordConfirmation`, `handle` returns 400 with an InvalidParam body
naming `passwordConfirmation`, and the call trace is empty: the
EmailValidator is not invoked. -/
theorem handle_password_mismatch (ev : EmailValidator) (aa : AddAccount)
    (body : SignUpBody) (n e p pc : String)
    (hn : body.name = some n) (hnt : n ≠ "")
    (he : body.email = some e) (het : e ≠ "")
    (hp : body.password = some p) (hpt : p ≠ "")
    (hpc : body.passwordConfirmation = some pc) (hpct : pc ≠ "")
    (hne : p ≠ pc) :
    handle ev aa ⟨some body⟩ =
      (some (badRequest (ErrorBody.InvalidParamError "passwordConfirmation")), []) := by
  simp only [handle, find?_requiredFields]
  simp [truthy, hn, he, hp, hpc, hnt, het, hpt, hpct, hne]

/-- C3 witness: `password = "a"`, `passwordConfirmation = "b"` gives
400 InvalidParam("passwordConfirmation") with no collaborator call. -/
theorem handle_password_mismatch_witness :
    handle emailValidatorStub addAccountStub
        ⟨some ⟨some "any_name", some "any_email@mail.com", some "a", some "b"⟩⟩ =
      (some (badRequest (ErrorBody.InvalidParamError "passwordConfirmation")), []) :=
  handle_password_mismatch emailValidatorStub addAccountStub
    ⟨some "any_name", some "any_email@mail.com", some "a", some "b"⟩
    "any_name" "any_email@mail.com" "a" "b"
    rfl (by decide) rfl (by decide) rfl (by decide) rfl (by decide) (by decide)

/-- C4: with all fields present and matching passwords, if
`EmailValidator.isValid` returns `false` then `handle` returns 400 with
an InvalidParam body naming `email`, and the trace shows the validator
invoked with exactly the submitted email string. -/
theorem handle_invalid_email (ev : EmailValidator) (aa : AddAccount)
    (body : SignUpBody) (n e p : String)
    (hn : body.name = some n) (hnt : n ≠ "")
    (he : body.email = some e) (het : e ≠ "")
    (hp : body.password = some p) (hpt : p ≠ "")
    (hpc : body.passwordConfirmation = some p)
    (hvalid : ev.isValid e = .ok false) :
    handle ev aa ⟨some body⟩ =
      (some (badRequest (ErrorBody.InvalidParamError "email")),
       [.isValidCall e]) := by
  simp only [handle, find?_requiredFields]
  simp [truthy, hn, he, hp, hpc, hnt, het, hpt, hvalid]

/-- C4 witness: the mocked-false validator on a well-formed request. -/
theorem handle_invalid_email_witness :
    handle emailValidatorFalseStub addAccountStub
        ⟨some ⟨some "any_name", some "invalid_email@mail.com",
               some "any_password", some "any_password"⟩⟩ =
      (some (badRequest (ErrorBody.InvalidParamError "email")),
       [.isValidCall "invalid_email@mail.com"]) :=
  handle_invalid_email emailValidatorFalseStub addAccountStub
    ⟨some "any_name", some "invalid_email@mail.com",
     some "any_password", some "any_password"⟩
    "any_name" "invalid_email@mail.com" "any_password"
    rfl (by decide) rfl (by decide) rfl (by decide) rfl rfl

/-- C5: on a request that reaches the email-validation step, if
`isValid` raises then `handle` returns 500 ServerError; the trace holds
only the `isValid` call, so `add` is never invoked. -/
theorem handle_email_validator_throws (ev : EmailValidator) (aa : AddAccount)
    (body : SignUpBody) (n e p msg : String)
    (hn : body.name = some n) (hnt : n ≠ "")
    (he : body.email = some e) (het : e ≠ "")
    (hp : body.password = some p) (hpt : p ≠ "")
    (hpc : body.passwordConfirmation = some p)
    (hthrow : ev.isValid e = .error msg) :
    handle ev aa ⟨some body⟩ = (some serverError, [.isValidCall e]) ∧
      addCount (handle ev aa ⟨some body⟩).2 = 0 := by
  constructor <;>
  · simp only [handle, find?_requiredFields]
    simp [truthy, addCount, hn, he, hp, hpc, hnt, het, hpt, hthrow]

/-- C5 witness: the throwing validator on a well-formed request. -/
theorem handle_email_validator_throws_witness :
    handle emailValidatorThrowStub addAccountStub
        ⟨some ⟨some "any_name", some "any_email@mail.com",
               some "any_password", some "any_password"⟩⟩ =
        (some serverError, [.isValidCall "any_email@mail.com"]) ∧
      addCount (handle emailValidatorThrowStub addAccountStub
        ⟨some ⟨some "any_name", some "any_email@mail.com",
               some "any_password", some "any_password"⟩⟩).2 = 0 :=
  handle_email_validator_throws emailValidatorThrowStub addAccountStub
    ⟨some "any_name", some "any_email@mail.com",
     some "any_password", some "any_password"⟩
    "any_name" "any_email@mail.com" "any_password" "err"
    rfl (by decide) rfl (by decide) rfl (by decide) rfl rfl

/-- C6: on a request that passes all validation, if `add` raises then
`handle` returns 500 with the generic ServerError body; the response is
the constant `serverError`, mentioning nothing of the raised message
`msg`, so no error details leak. -/
theorem handle_add_account_throws (ev : EmailValidator) (aa : AddAccount)
    (body : SignUpBody) (e n p msg : String)
    (hn : body.name = some n) (hnt : n ≠ "")
    (he : body.email = some e) (het : e ≠ "")
    (hp : body.password = some p) (hpt : p ≠ "")
    (hpc : body.passwordConfirmation = some p)
    (hvalid : ev.isValid e = .ok true)
    (hthrow : aa.add ⟨e, n, p⟩ = .error msg) :
    (handle ev aa ⟨some body⟩).1 = some serverError ∧
      serverError.body = ErrorBody.ServerError := by
  refine ⟨?_, rfl⟩
  simp only [handle, find?_requiredFields]
  simp [truthy, hn, he, hp, hpc, hnt, het, hpt, hvalid, hthrow]

/-- C6 witness: the throwing account creator on a fully valid request. -/
theorem handle_add_account_throws_witness :
    (handle emailValidatorStub addAccountThrowStub validRequest).1 =
        some serverError ∧
      serverError.body = ErrorBody.ServerError :=
  handle_add_account_throws emailValidatorStub addAccountThrowStub
    ⟨some "any_name", some "any_email@mail.com",
     some "any_password", some "any_password"⟩
    "any_email@mail.com" "any_name" "any_password" "err"
    rfl (by decide) rfl (by decide) rfl (by decide) rfl rfl rfl

/-- C7: on a request where all four fields are present, passwords match
and the validator returns true, the trace is exactly one `isValid` call
followed by exactly one `add` call whose argument is
`{email, name, password}` taken from the request — `AddAccountModel` has
no passwordConfirmation field, so it is excluded; and on every call
whatsoever each collaborator is invoked at most once. -/
theorem handle_add_called_once :
    (∀ (ev : EmailValidator) (aa : AddAccount) (body : SignUpBody) (e n p : String),
      body.name = some n → n ≠ "" → body.email = some e → e ≠ "" →
      body.password = some p → p ≠ "" → body.passwordConfirmation = some p →
      ev.isValid e = .ok true →
      (handle ev aa ⟨some body⟩).2 = [.isValidCall e, .addCall ⟨e, n, p⟩]) ∧
    (∀ (ev : EmailValidator) (aa : AddAccount) (req : HttpRequest),
      isValidCount (handle ev aa req).2 ≤ 1 ∧ addCount (handle ev aa req).2 ≤ 1) := by
  constructor
  · intro ev aa body e n p hn hnt he het hp hpt hpc hvalid
    simp only [handle, find?_requiredFields]
    cases hadd : aa.add ⟨e, n, p⟩ <;>
      simp [truthy, hn, he, hp, hpc, hnt, het, hpt, hvalid, hadd]
  · intro ev aa req
    obtain ⟨_ | body⟩ := req
    · simp [handle, isValidCount, addCount]
    · simp only [handle]
      cases hfind : List.find? (fun field => !truthy (getField body field)) requiredFields with
      | some f => simp [isValidCount, addCount]
      | none =>
          simp only []
          split
          · simp [isValidCount, addCount]
          · cases hv : ev.isValid (body.email.getD "") with
            | error m => simp [isValidCount, addCount]
            | ok b =>
                cases b
                · simp [isValidCount, addCount]
                · cases hadd : aa.add ⟨body.email.getD "", body.name.getD "",
                      body.password.getD ""⟩ <;>
                    simp [isValidCount, addCount]

/-- C7 witness: the test-file stubs on a fully valid request. -/
theorem handle_add_called_once_witness :
    (handle emailValidatorStub addAccountStub validRequest).2 =
        [.isValidCall "any_email@mail.com",
         .addCall ⟨"any_email@mail.com", "any_name", "any_password"⟩] ∧
      isValidCount (handle emailValidatorStub addAccountStub validRequest).2 ≤ 1 ∧
      addCount (handle emailValidatorStub addAccountStub validRequest).2 ≤ 1 :=
  ⟨handle_add_called_once.1 emailValidatorStub addAccountStub
      ⟨some "any_name", some "any_email@mail.com",
       some "any_password", some "any_password"⟩
      "any_email@mail.com" "any_name" "any_password"
      rfl (by decide) rfl (by decide) rfl (by decide) rfl rfl,
   handle_add_called_once.2 emailValidatorStub addAccountStub validRequest⟩

/-- C8: the missing-field checks run in the source's fixed order
email, name, password, passwordConfirmation and the first failing check
wins: whenever the field at position `i` of that order is falsy and every
field at an earlier position is truthy — in particular when two or more
required fields are missing — the 400 MissingParam body names the field
at position `i`. -/
theorem handle_first_missing_field_wins (ev : EmailValidator) (aa : AddAccount)
    (body : SignUpBody) (i : Fin 4)
    (hmiss : truthy (getField body (requiredFields.get i)) = false)
    (hearlier : ∀ j : Fin 4, j < i →
      truthy (getField body (requiredFields.get j)) = true) :
    handle ev aa ⟨some body⟩ =
      (some (badRequest (ErrorBody.MissingParamError (requiredFields.get i))), []) := by
  fin_cases i
  · replace hmiss : truthy body.email = false := hmiss
    show handle ev aa ⟨some body⟩ =
      (some (badRequest (ErrorBody.MissingParamError "email")), [])
    simp [handle, find?_requiredFields, hmiss]
  · replace hmiss : truthy body.name = false := hmiss
    have he : truthy body.email = true := hearlier ⟨0, by decide⟩ (by decide)
    show handle ev aa ⟨some body⟩ =
      (some (badRequest (ErrorBody.MissingParamError "name")), [])
    simp [handle, find?_requiredFields, he, hmiss]
  · replace hmiss : truthy body.password = false := hmiss
    have he : truthy body.email = true := hearlier ⟨0, by decide⟩ (by decide)
    have hn : truthy body.name = true := hearlier ⟨1, by decide⟩ (by decide)
    show handle ev aa ⟨some body⟩ =
      (some (badRequest (ErrorBody.MissingParamError "password")), [])
    simp [handle, find?_requiredFields, he, hn, hmiss]
  · replace hmiss : truthy body.passwordConfirmation = false := hmiss
    have he : truthy body.email = true := hearlier ⟨0, by decide⟩ (by decide)
    have hn : truthy body.name = true := hearlier ⟨1, by decide⟩ (by decide)
    have hp : truthy body.password = true := hearlier ⟨2, by decide⟩ (by decide)
    show handle ev aa ⟨some body⟩ =
      (some (badRequest (ErrorBody.MissingParamError "passwordConfirmation")), [])
    simp [handle, find?_requiredFields, he, hn, hp, hmiss]

/-- C8 witness: with both `name` and `password` missing, the response
names `name`, the earlier of the two in the check order. -/
theorem handle_first_missing_field_wins_witness :
    handle emailValidatorStub addAccountStub
        ⟨some ⟨none, some "any_email@mail.com", none, some "any_password"⟩⟩ =
      (some (badRequest (ErrorBody.MissingParamError "name")), []) :=
  handle_first_missing_field_wins emailValidatorStub addAccountStub
    ⟨none, some "any_email@mail.com", none, some "any_password"⟩
    ⟨1, by decide⟩ (by decide) (by decide)

end SignUp
